import Mathlib

/-!
Verification development for a presence-relay bot: a Steam presence feed is
filtered against a link store and relayed to Discord channels with
change-detection and rate limiting.  The definitions below are a shallow
embedding of the program's persistence layer (`database.js`), its presence
pipeline (`handlePresenceChange` in the bot entry point), the raw-event
admission filter (`steam-manager.js`), the login/second-factor flow
(`steam-manager.js`), the link command (`commands/steam.js`), and the
process-level shutdown wiring.  SQLite tables keyed by a TEXT primary key are
modelled as association lists; unix-second timestamps are `Int`.
-/

set_option autoImplicit false

namespace SteamBot

/-- Point lookup in a keyed table (`SELECT * FROM t WHERE key = ?`). -/
def lookupTable {α : Type} (t : List (String × α)) (k : String) : Option α :=
  (t.find? (fun p => p.1 == k)).map Prod.snd

/-- `INSERT OR REPLACE` into a table whose only uniqueness constraint is the
primary key `k`: the row for `k` is replaced, every other row is kept. -/
def upsertTable {α : Type} (t : List (String × α)) (k : String) (v : α) : List (String × α) :=
  (k, v) :: t.filter (fun p => p.1 != k)

/-- One row of `rate_limits` (`steam_id` is the key, kept outside). -/
structure RateLimitRecord where
  lastUpdate : Int
  updateCount : Nat
deriving DecidableEq

/-- One row of `steam_cache` (`steam_id` is the key, kept outside). -/
structure CacheEntry where
  personaName : String
  gameName : Option String
  gameId : Option String
  personaState : Nat
  lastUpdated : Int
deriving DecidableEq

/-- The presence snapshot assembled by the `user` event handler and fed to
`handlePresenceChange` (the `richPresence` field is never read by the
pipeline and is omitted). -/
structure PresenceData where
  steamId : String
  personaName : String
  personaState : Nat
  gameId : Option String
  gameName : Option String
deriving DecidableEq

/-- The four tables of `database.js`.  `userMappings` holds
`(discord_id, steam_id)` rows (`discord_id` PRIMARY KEY, `steam_id` UNIQUE);
`serverConfigs` holds `(guild_id, update_channel_id)` rows. -/
structure BotState where
  userMappings : List (String × String)
  serverConfigs : List (String × String)
  rateLimits : List (String × RateLimitRecord)
  steamCache : List (String × CacheEntry)
deriving DecidableEq

/-- `getUserMapping(discordId)`. -/
def getUserMapping (s : BotState) (discordId : String) : Option (String × String) :=
  s.userMappings.find? (fun p => p.1 == discordId)

/-- `getMappingBySteamId(steamId)`. -/
def getMappingBySteamId (s : BotState) (steamId : String) : Option (String × String) :=
  s.userMappings.find? (fun p => p.2 == steamId)

/-- `linkUser(discordId, steamId)`: `INSERT OR REPLACE INTO user_mappings`.
With `discord_id` PRIMARY KEY and `steam_id` UNIQUE, SQLite's `OR REPLACE`
deletes every row conflicting on either column before inserting. -/
def linkUser (s : BotState) (discordId steamId : String) : BotState :=
  { s with userMappings :=
      (discordId, steamId) ::
        s.userMappings.filter (fun p => p.1 != discordId && p.2 != steamId) }

/-- `unlinkUser(discordId)`. -/
def unlinkUser (s : BotState) (discordId : String) : BotState :=
  { s with userMappings := s.userMappings.filter (fun p => p.1 != discordId) }

/-- `setUpdateChannel(guildId, channelId)`. -/
def setUpdateChannel (s : BotState) (guildId channelId : String) : BotState :=
  { s with serverConfigs := upsertTable s.serverConfigs guildId channelId }

/-- `canUpdate(steamId, cooldownSeconds)` evaluated at unix second `now`
(`Math.floor(Date.now() / 1000)` in the source). -/
def canUpdate (s : BotState) (steamId : String) (cooldownSeconds now : Int) : Bool :=
  match lookupTable s.rateLimits steamId with
  | none => true
  | some record => cooldownSeconds ≤ now - record.lastUpdate

/-- `recordUpdate(steamId)` at unix second `now`: upsert with
`last_update = now` and `update_count = COALESCE(old count, 0) + 1`. -/
def recordUpdate (s : BotState) (steamId : String) (now : Int) : BotState :=
  let oldCount : Nat :=
    match lookupTable s.rateLimits steamId with
    | none => 0
    | some record => record.updateCount
  { s with rateLimits := upsertTable s.rateLimits steamId ⟨now, oldCount + 1⟩ }

/-- The `steam_cache` row written for snapshot `e` at unix second `now`
(the source lets SQLite stamp `last_updated` with the current unix second). -/
def cacheEntryOf (e : PresenceData) (now : Int) : CacheEntry :=
  ⟨e.personaName, e.gameName, e.gameId, e.personaState, now⟩

/-- `updateSteamCache(steamId, data)` at unix second `now`. -/
def updateSteamCache (s : BotState) (steamId : String) (e : PresenceData) (now : Int) : BotState :=
  { s with steamCache := upsertTable s.steamCache steamId (cacheEntryOf e now) }

/-- `getSteamCache(steamId)`. -/
def getSteamCache (s : BotState) (steamId : String) : Option CacheEntry :=
  lookupTable s.steamCache steamId

/-- The tail of `handlePresenceChange` reached once the event is known to be
new or changed: `if (!canUpdate) { updateSteamCache; return }` and otherwise
`updateSteamCache; recordUpdate;` then one `sendPresenceUpdate` per row of
`getAllServerConfigs()` (the delivery outcome `send channelId` only feeds the
logged `sentCount`).  The returned list records each attempted channel with
its delivery result, in table order. -/
def processChangedEvent (s : BotState) (e : PresenceData) (now : Int) (send : String → Bool) :
    BotState × List (String × Bool) :=
  if !(canUpdate s e.steamId 300 now) then
    (updateSteamCache s e.steamId e now, [])
  else
    let s1 := updateSteamCache s e.steamId e now
    let s2 := recordUpdate s1 e.steamId now
    (s2, s2.serverConfigs.map (fun c => (c.2, send c.2)))

/-- The happy path of `handlePresenceChange(presenceData)` (the try-block
body), evaluated at unix second `now` with delivery oracle `send`:
unlinked accounts are dropped; an existing cache row with equal
`persona_state` and `game_name` means "no meaningful change" and an early
return; otherwise the event proceeds to rate limiting and fanout. -/
def handlePresenceChange (s : BotState) (e : PresenceData) (now : Int) (send : String → Bool) :
    BotState × List (String × Bool) :=
  match getMappingBySteamId s e.steamId with
  | none => (s, [])
  | some _ =>
    match getSteamCache s e.steamId with
    | some previousState =>
      if previousState.personaState = e.personaState ∧ previousState.gameName = e.gameName then
        (s, [])
      else
        processChangedEvent s e now send
    | none => processChangedEvent s e now send

/-! ## Raw `user` event admission (`steam-manager.js`) -/

/-- The fields of the raw `user` payload that the handler reads; each may be
absent (`undefined` in the source). -/
structure RawUser where
  player_name : Option String
  persona_state : Option Nat
  gameid : Option String
  game_name : Option String

/-- JavaScript `v || d` on an optional string: `undefined` and `""` are falsy. -/
def jsStrOr (v : Option String) (d : String) : String :=
  match v with
  | some str => if str = "" then d else str
  | none => d

/-- JavaScript `v || null` on an optional string. -/
def jsStrOrNull (v : Option String) : Option String :=
  match v with
  | some str => if str = "" then none else some str
  | none => none

/-- JavaScript `v || d` on an optional number: `undefined` and `0` are falsy. -/
def jsNatOr (v : Option Nat) (d : Nat) : Nat :=
  match v with
  | some n => if n = 0 then d else n
  | none => d

/-- The `presenceData` object built inside the `user` handler. -/
def extractPresenceData (steamId : String) (u : RawUser) : PresenceData :=
  { steamId := steamId
  , personaName := jsStrOr u.player_name "Unknown"
  , personaState := jsNatOr u.persona_state 0
  , gameId := jsStrOrNull u.gameid
  , gameName := jsStrOrNull u.game_name }

/-- The `user` event handler: a sender outside `friendsCache` is rejected
before any presence data is extracted or any handler invoked; otherwise the
snapshot is forwarded to the registered presence-change handler. -/
def onUserEvent (friendsCache : List String) (s : BotState) (steamId : String) (u : RawUser)
    (now : Int) (send : String → Bool) : BotState × List (String × Bool) :=
  if !(friendsCache.contains steamId) then
    (s, [])
  else
    handlePresenceChange s (extractPresenceData steamId u) now send

/-! ## Login and second-factor handling (`steam-manager.js`) -/

/-- The credential configuration handed to `SteamManager`; the optional
fields come from environment variables and may be unset. -/
structure SteamConfig where
  username : String
  password : String
  sharedSecret : Option String
  twoFactorCode : Option String
deriving DecidableEq

/-- The `logOnOptions` object passed to `client.logOn`. -/
structure LogOnOptions where
  accountName : String
  password : String
  twoFactorCode : Option String
deriving DecidableEq

/-- JavaScript truthiness test on an optional env string
(`undefined` and `""` are falsy). -/
def jsPresent (v : Option String) : Option String :=
  match v with
  | some str => if str = "" then none else some str
  | none => none

/-- `login()` builds `logOnOptions` at the moment of the attempt: with a
shared secret configured, `twoFactorCode` is `SteamTotp.generateAuthCode`
applied right then (`gen secret t` with `t` the attempt time); otherwise a
manually supplied one-shot code is used verbatim; otherwise no code is set.
`gen` abstracts the time-based derivation of the external TOTP library. -/
def buildLogOnOptions (gen : String → Int → String) (cfg : SteamConfig) (t : Int) : LogOnOptions :=
  { accountName := cfg.username
  , password := cfg.password
  , twoFactorCode :=
      match jsPresent cfg.sharedSecret with
      | some secret => some (gen secret t)
      | none => jsPresent cfg.twoFactorCode }

/-- Outcome of the `steamGuard` challenge handler. -/
inductive SteamGuardResponse where
  | submitCode (code : String)
  | fatalReject (message : String)
deriving DecidableEq

/-- The `steamGuard` handler at challenge time `t`: with a shared secret it
derives a fresh code on demand and submits it through the callback; without
one it rejects the login promise with a fatal error. -/
def onSteamGuard (gen : String → Int → String) (cfg : SteamConfig) (t : Int) :
    SteamGuardResponse :=
  match jsPresent cfg.sharedSecret with
  | some secret => .submitCode (gen secret t)
  | none =>
    .fatalReject "SteamGuard code required but no shared secret or code provided. Please set STEAM_SHARED_SECRET or STEAM_2FA_CODE in .env"

/-! ## The `/steam link` command (`commands/steam.js`) -/

/-- `true` when pattern `p` occurs at the very start of `cs`
(character-by-character literal match). -/
def beginsWith : List Char → List Char → Bool
  | [], _ => true
  | _ :: _, [] => false
  | p :: ps, c :: cs => p == c && beginsWith ps cs

/-- The literal part of the regex `steamcommunity\.com\/profiles\/(\d+)`. -/
def profilesUrlLit : List Char := "steamcommunity.com/profiles/".data

/-- The literal part of the regex `steamcommunity\.com\/id\/([^\/]+)`. -/
def customUrlLit : List Char := "steamcommunity.com/id/".data

/-- Attempt the profiles-URL regex at the current position: the literal must
match here and be followed by at least one digit; the capture group `(\d+)`
takes the maximal digit run. -/
def matchProfilesAt (cs : List Char) : Option (List Char) :=
  if beginsWith profilesUrlLit cs then
    let digits := (cs.drop profilesUrlLit.length).takeWhile Char.isDigit
    if digits.isEmpty then none else some digits
  else none

/-- `identifier.match(/steamcommunity\.com\/profiles\/(\d+)/)`: the regex
engine tries every start position left to right and returns the first
capture. -/
def scanProfiles : List Char → Option (List Char)
  | [] => none
  | c :: rest =>
    match matchProfilesAt (c :: rest) with
    | some digits => some digits
    | none => scanProfiles rest

/-- Attempt the custom-URL regex at the current position: the literal must
match here and be followed by at least one non-`/` character. -/
def matchCustomAt (cs : List Char) : Bool :=
  beginsWith customUrlLit cs &&
    match cs.drop customUrlLit.length with
    | [] => false
    | c :: _ => c != '/'

/-- `identifier.match(/steamcommunity\.com\/id\/([^\/]+)/) !== null`. -/
def hasCustomUrl : List Char → Bool
  | [] => false
  | c :: rest => matchCustomAt (c :: rest) || hasCustomUrl rest

/-- JavaScript `identifier.trim()`: strip whitespace from both ends. -/
def jsTrim (s : String) : String :=
  String.mk (((s.data.dropWhile Char.isWhitespace).reverse.dropWhile Char.isWhitespace).reverse)

/-- The regex `^7656119\d{10}$`: exactly seventeen characters, the first
seven being the literal `7656119` and the remaining ten digits — equivalently
seventeen digits beginning with `7656119`. -/
def isSteamId64 (s : String) : Bool :=
  beginsWith "7656119".data s.data && s.data.length == 17 && s.data.all Char.isDigit

/-- `parseSteamIdentifier(identifier)`: trim, accept a bare SteamID64,
otherwise extract the digits of a profiles URL, otherwise throw — with a
dedicated message for custom URLs. -/
def parseSteamIdentifier (identifier : String) : Except String String :=
  let t := jsTrim identifier
  if isSteamId64 t then
    .ok t
  else
    match scanProfiles t.data with
    | some digits => .ok (String.mk digits)
    | none =>
      if hasCustomUrl t.data then
        .error "Custom URLs not supported. Please provide your Steam ID64 instead."
      else
        .error "Invalid Steam identifier format"

/-- Reply classes of `handleLink` (rendered message text is out of scope;
the two conflict replies correspond to the two distinct messages of the
source). -/
inductive LinkReply where
  | invalidIdentifier
  | notFriend
  | alreadyLinkedToSteam (existingSteamId : String)
  | steamLinkedToOtherUser
  | success (steamId : String)
deriving DecidableEq

/-- Both conflict replies realise the spec's `AlreadyLinkedOther`: one side
of the requested link is already bound to a different counterpart. -/
def LinkReply.isAlreadyLinkedOther : LinkReply → Bool
  | .alreadyLinkedToSteam _ => true
  | .steamLinkedToOtherUser => true
  | _ => false

/-- The tail of `handleLink` after the caller-side check: if the Steam id is
bound to a different Discord user, fail without writing; otherwise
`linkUser` commits the (possibly re-confirmed) link. -/
def handleLinkSteamSide (s : BotState) (discordId steamId64 : String) : LinkReply × BotState :=
  match getMappingBySteamId s steamId64 with
  | some existingSteam =>
    if existingSteam.1 ≠ discordId then
      (.steamLinkedToOtherUser, s)
    else
      (.success steamId64, linkUser s discordId steamId64)
  | none => (.success steamId64, linkUser s discordId steamId64)

/-- `handleLink(interaction)`: parse the identifier, require friendship with
the bot, then refuse if the invoking user is bound to a different Steam id,
then refuse if the Steam id is bound to a different user, else write. -/
def handleLink (friendsCache : List String) (s : BotState) (discordId identifier : String) :
    LinkReply × BotState :=
  match parseSteamIdentifier identifier with
  | .error _ => (.invalidIdentifier, s)
  | .ok steamId64 =>
    if !(friendsCache.contains steamId64) then
      (.notFriend, s)
    else
      match getUserMapping s discordId with
      | some existing =>
        if existing.2 ≠ steamId64 then
          (.alreadyLinkedToSteam existing.2, s)
        else
          handleLinkSteamSide s discordId steamId64
      | none => handleLinkSteamSide s discordId steamId64

/-! ## Exception handling and shutdown (`index.js` / bot entry point) -/

/-- What the process does after one dispatched presence event returns. -/
inductive HandlerOutcome where
  | continued
  | shutdownStarted
deriving DecidableEq

/-- The body of `handlePresenceChange` runs against a live database handle;
better-sqlite3 raises on any prepared statement once the handle is closed,
which is the realistic failure source inside the try block.  `dbOpen = false`
makes the very first statement of the body throw. -/
def runHandlerBody (dbOpen : Bool) (s : BotState) (e : PresenceData) (now : Int)
    (send : String → Bool) : Except String (BotState × List (String × Bool)) :=
  if dbOpen then
    .ok (handlePresenceChange s e now send)
  else
    .error "The database connection is not open"

/-- The full `handlePresenceChange` method: its entire body is wrapped in
`try ... catch (error) ... logger.error(...)` — the catch block logs and
falls through, so the method returns normally on both paths and no shutdown
is initiated from inside the event-processing path. -/
def handlePresenceChangeTop (dbOpen : Bool) (s : BotState) (e : PresenceData) (now : Int)
    (send : String → Bool) : HandlerOutcome :=
  match runHandlerBody dbOpen s e now send with
  | .ok _ => .continued
  | .error _ => .continued

/-- Steps of the `shutdown` closure in `setupShutdownHandlers`, in order. -/
inductive ShutdownStep where
  | steamLogout
  | discordDestroy
  | dbClose
  | exitProcess
deriving DecidableEq

/-- The graceful-shutdown sequence: log out of Steam, destroy the Discord
client, close the store, exit. -/
def shutdownSequence : List ShutdownStep :=
  [.steamLogout, .discordDestroy, .dbClose, .exitProcess]

/-- The process-level events for which `setupShutdownHandlers` registers a
handler. -/
inductive ProcessEvent where
  | sigint
  | sigterm
  | uncaughtException (message : String)
  | unhandledRejection (message : String)

/-- All four registered process handlers call the same `shutdown` closure. -/
def onProcessEvent : ProcessEvent → List ShutdownStep
  | .sigint => shutdownSequence
  | .sigterm => shutdownSequence
  | .uncaughtException _ => shutdownSequence
  | .unhandledRejection _ => shutdownSequence

/-! ## Helper lemmas -/

deriving instance DecidableEq for Except

theorem lookupTable_upsert_self {α : Type} (t : List (String × α)) (k : String) (v : α) :
    lookupTable (upsertTable t k v) k = some v := by
  simp [lookupTable, upsertTable, List.find?]

theorem find?_filter_ne {α : Type} (t : List (String × α)) (k k' : String) (h : k' ≠ k) :
    (t.filter (fun p => p.1 != k)).find? (fun p => p.1 == k') = t.find? (fun p => p.1 == k') := by
  induction t with
  | nil => rfl
  | cons p rest ih =>
    by_cases hk : p.1 = k
    · rw [List.filter_cons_of_neg (by simp [hk]),
        List.find?_cons_of_neg _ (by simp [hk]; exact fun hc => h hc.symm), ih]
    · rw [List.filter_cons_of_pos (by simp [hk])]
      by_cases hk' : p.1 = k'
      · rw [List.find?_cons_of_pos _ (by simp [hk']), List.find?_cons_of_pos _ (by simp [hk'])]
      · rw [List.find?_cons_of_neg _ (by simp [hk']), List.find?_cons_of_neg _ (by simp [hk']),
          ih]

theorem lookupTable_upsert_ne {α : Type} (t : List (String × α)) (k k' : String) (v : α)
    (h : k' ≠ k) : lookupTable (upsertTable t k v) k' = lookupTable t k' := by
  have hke : (k == k') = false := by simp; exact fun hc => h hc.symm
  simp only [lookupTable, upsertTable, List.find?, hke]
  rw [find?_filter_ne t k k' h]

theorem updateSteamCache_userMappings (s : BotState) (sid : String) (e : PresenceData)
    (now : Int) : (updateSteamCache s sid e now).userMappings = s.userMappings := rfl

theorem updateSteamCache_serverConfigs (s : BotState) (sid : String) (e : PresenceData)
    (now : Int) : (updateSteamCache s sid e now).serverConfigs = s.serverConfigs := rfl

theorem updateSteamCache_rateLimits (s : BotState) (sid : String) (e : PresenceData)
    (now : Int) : (updateSteamCache s sid e now).rateLimits = s.rateLimits := rfl

theorem recordUpdate_userMappings (s : BotState) (sid : String) (now : Int) :
    (recordUpdate s sid now).userMappings = s.userMappings := rfl

theorem recordUpdate_serverConfigs (s : BotState) (sid : String) (now : Int) :
    (recordUpdate s sid now).serverConfigs = s.serverConfigs := rfl

theorem recordUpdate_steamCache (s : BotState) (sid : String) (now : Int) :
    (recordUpdate s sid now).steamCache = s.steamCache := rfl

theorem getSteamCache_updateSteamCache_self (s : BotState) (sid : String) (e : PresenceData)
    (now : Int) : getSteamCache (updateSteamCache s sid e now) sid = some (cacheEntryOf e now) :=
  lookupTable_upsert_self s.steamCache sid (cacheEntryOf e now)

theorem getMappingBySteamId_updateSteamCache (s : BotState) (sid sid' : String)
    (e : PresenceData) (now : Int) :
    getMappingBySteamId (updateSteamCache s sid e now) sid' = getMappingBySteamId s sid' := rfl

theorem getMappingBySteamId_recordUpdate (s : BotState) (sid sid' : String) (now : Int) :
    getMappingBySteamId (recordUpdate s sid now) sid' = getMappingBySteamId s sid' := rfl

theorem processChangedEvent_userMappings (s : BotState) (e : PresenceData) (now : Int)
    (send : String → Bool) :
    (processChangedEvent s e now send).1.userMappings = s.userMappings := by
  unfold processChangedEvent
  split <;> rfl

theorem getSteamCache_processChangedEvent (s : BotState) (e : PresenceData) (now : Int)
    (send : String → Bool) :
    getSteamCache (processChangedEvent s e now send).1 e.steamId = some (cacheEntryOf e now) := by
  unfold processChangedEvent
  split
  · exact getSteamCache_updateSteamCache_self s e.steamId e now
  · show getSteamCache (recordUpdate (updateSteamCache s e.steamId e now) e.steamId now)
        e.steamId = some (cacheEntryOf e now)
    show lookupTable (recordUpdate (updateSteamCache s e.steamId e now) e.steamId now).steamCache
        e.steamId = some (cacheEntryOf e now)
    rw [recordUpdate_steamCache]
    exact getSteamCache_updateSteamCache_self s e.steamId e now

theorem canUpdate_eq_true_iff (s : BotState) (sid : String) (cd now : Int) :
    canUpdate s sid cd now = true ↔
      lookupTable s.rateLimits sid = none ∨
        ∃ r, lookupTable s.rateLimits sid = some r ∧ cd ≤ now - r.lastUpdate := by
  unfold canUpdate
  cases h : lookupTable s.rateLimits sid with
  | none => simp
  | some r => simp [h]

theorem processChangedEvent_ineligible (s : BotState) (e : PresenceData) (now : Int)
    (send : String → Bool) (h : canUpdate s e.steamId 300 now = false) :
    processChangedEvent s e now send = (updateSteamCache s e.steamId e now, []) := by
  unfold processChangedEvent
  rw [h]
  rfl

theorem processChangedEvent_eligible (s : BotState) (e : PresenceData) (now : Int)
    (send : String → Bool) (h : canUpdate s e.steamId 300 now = true) :
    processChangedEvent s e now send =
      (recordUpdate (updateSteamCache s e.steamId e now) e.steamId now,
        s.serverConfigs.map (fun c => (c.2, send c.2))) := by
  unfold processChangedEvent
  rw [h]
  rfl

/-- The pipeline reduces to the changed-event tail whenever the account is
linked and the event is new or differs in a compared field. -/
theorem handlePresenceChange_changed (s : BotState) (e : PresenceData) (now : Int)
    (send : String → Bool) (m : String × String)
    (hm : getMappingBySteamId s e.steamId = some m)
    (hch : getSteamCache s e.steamId = none ∨
      ∃ prev, getSteamCache s e.steamId = some prev ∧
        (prev.personaState ≠ e.personaState ∨ prev.gameName ≠ e.gameName)) :
    handlePresenceChange s e now send = processChangedEvent s e now send := by
  unfold handlePresenceChange
  rcases hch with hc | ⟨prev, hc, hne⟩
  · simp only [hm, hc]
  · have hneq : ¬(prev.personaState = e.personaState ∧ prev.gameName = e.gameName) := by
      tauto
    simp only [hm, hc, if_neg hneq]

/-- The pipeline is an identity whenever the account is linked, a cache row
exists, and both compared fields are unchanged. -/
theorem handlePresenceChange_unchanged (s : BotState) (e : PresenceData) (now : Int)
    (send : String → Bool) (m : String × String) (prev : CacheEntry)
    (hm : getMappingBySteamId s e.steamId = some m)
    (hc : getSteamCache s e.steamId = some prev)
    (hps : prev.personaState = e.personaState) (hgn : prev.gameName = e.gameName) :
    handlePresenceChange s e now send = (s, []) := by
  unfold handlePresenceChange
  simp only [hm, hc, if_pos (And.intro hps hgn)]

/-! ## Claims -/

/-- C7: a presence event for an account outside the friendship set is
rejected by the `user` handler before reaching the pipeline — the state
(including the presence cache) is untouched and nothing is notified, even
when a link record for the account exists. -/
theorem nonFriendEventNeverCachedOrNotified (friendsCache : List String) (s : BotState)
    (steamId : String) (u : RawUser) (now : Int) (send : String → Bool)
    (h : friendsCache.contains steamId = false) :
    onUserEvent friendsCache s steamId u now send = (s, []) := by
  unfold onUserEvent
  rw [h]
  rfl

/-- C7 witness: a linked but non-friend account; the event is dropped with
no cache write and no notification. -/
theorem nonFriendEventNeverCachedOrNotified_witness :
    (["76561198000000002"].contains "76561198000000001") = false ∧
      onUserEvent ["76561198000000002"]
          ⟨[("u1", "76561198000000001")], [("g1", "chan1")], [], []⟩
          "76561198000000001" ⟨some "P", some 1, none, none⟩ 0 (fun _ => true)
        = (⟨[("u1", "76561198000000001")], [("g1", "chan1")], [], []⟩, []) :=
  ⟨by decide,
    nonFriendEventNeverCachedOrNotified ["76561198000000002"]
      ⟨[("u1", "76561198000000001")], [("g1", "chan1")], [], []⟩
      "76561198000000001" ⟨some "P", some 1, none, none⟩ 0 (fun _ => true) (by decide)⟩

/-- C3: for a linked account with a cache row whose compared fields equal the
snapshot, the event is a complete no-op — no notification, no rate-limit
write, no timestamp advance (the whole state is returned unchanged), with no
eligibility check consulted, so this holds mid-cooldown as well; and
delivering any snapshot twice in a row never notifies on the second
delivery. -/
theorem identicalSnapshotIsNoOp :
    (∀ (s : BotState) (e : PresenceData) (now : Int) (send : String → Bool)
        (m : String × String) (prev : CacheEntry),
      getMappingBySteamId s e.steamId = some m →
      getSteamCache s e.steamId = some prev →
      prev.personaState = e.personaState → prev.gameName = e.gameName →
      handlePresenceChange s e now send = (s, []))
    ∧ (∀ (s : BotState) (e : PresenceData) (now₁ now₂ : Int) (send₁ send₂ : String → Bool),
      (handlePresenceChange (handlePresenceChange s e now₁ send₁).1 e now₂ send₂).2 = []) := by
  constructor
  · intro s e now send m prev hm hc hps hgn
    exact handlePresenceChange_unchanged s e now send m prev hm hc hps hgn
  · intro s e now₁ now₂ send₁ send₂
    cases hm : getMappingBySteamId s e.steamId with
    | none =>
      have h1 : handlePresenceChange s e now₁ send₁ = (s, []) := by
        unfold handlePresenceChange
        simp only [hm]
      rw [h1]
      unfold handlePresenceChange
      simp only [hm]
    | some m =>
      have hafter : ∀ send' now', (handlePresenceChange
          (processChangedEvent s e now₁ send₁).1 e now' send').2 = [] := by
        intro send' now'
        have hm2 : getMappingBySteamId (processChangedEvent s e now₁ send₁).1 e.steamId
            = some m := by
          unfold getMappingBySteamId
          rw [processChangedEvent_userMappings]
          exact hm
        have hc2 : getSteamCache (processChangedEvent s e now₁ send₁).1 e.steamId
            = some (cacheEntryOf e now₁) :=
          getSteamCache_processChangedEvent s e now₁ send₁
        rw [handlePresenceChange_unchanged (processChangedEvent s e now₁ send₁).1 e now'
          send' m (cacheEntryOf e now₁) hm2 hc2 rfl rfl]
      cases hc : getSteamCache s e.steamId with
      | none =>
        rw [handlePresenceChange_changed s e now₁ send₁ m hm (Or.inl hc)]
        exact hafter send₂ now₂
      | some prev =>
        by_cases hif : prev.personaState = e.personaState ∧ prev.gameName = e.gameName
        · rw [handlePresenceChange_unchanged s e now₁ send₁ m prev hm hc hif.1 hif.2]
          rw [handlePresenceChange_unchanged s e now₂ send₂ m prev hm hc hif.1 hif.2]
        · rw [handlePresenceChange_changed s e now₁ send₁ m hm
            (Or.inr ⟨prev, hc, not_and_or.mp hif⟩)]
          exact hafter send₂ now₂

/-- C3 witness: a linked account mid-cooldown (record at second −50, event at
second 10) receiving a snapshot identical in both compared fields: the state
is returned unchanged and nothing is sent. -/
theorem identicalSnapshotIsNoOp_witness :
    handlePresenceChange
        ⟨[("u1", "X")], [("g1", "chan1")], [("X", ⟨-50, 1⟩)], [("X", ⟨"P", none, none, 1, 0⟩)]⟩
        ⟨"X", "P", 1, none, none⟩ 10 (fun _ => true)
      = (⟨[("u1", "X")], [("g1", "chan1")], [("X", ⟨-50, 1⟩)],
          [("X", ⟨"P", none, none, 1, 0⟩)]⟩, []) :=
  identicalSnapshotIsNoOp.1
    ⟨[("u1", "X")], [("g1", "chan1")], [("X", ⟨-50, 1⟩)], [("X", ⟨"P", none, none, 1, 0⟩)]⟩
    ⟨"X", "P", 1, none, none⟩ 10 (fun _ => true) ("u1", "X") ⟨"P", none, none, 1, 0⟩
    (by decide) (by decide) (by decide) (by decide)

/-- C1 counterexample: for a linked account, an event whose compared fields
(`persona_state`, `game_name`) equal the cached row but whose `persona_name`
differs is discarded without any cache write — the cache row keeps the stale
name `"Old"` and is not updated to the event's snapshot, refuting "updated on
every event ... including events whose compared fields are identical". -/
theorem identicalFieldsEventLeavesCacheStale :
    handlePresenceChange
        ⟨[("u1", "X")], [("g1", "chan1")], [], [("X", ⟨"Old", none, none, 1, 10⟩)]⟩
        ⟨"X", "New", 1, none, none⟩ 50 (fun _ => true)
      = (⟨[("u1", "X")], [("g1", "chan1")], [], [("X", ⟨"Old", none, none, 1, 10⟩)]⟩, [])
    ∧ (⟨"Old", none, none, 1, 10⟩ : CacheEntry) ≠ cacheEntryOf ⟨"X", "New", 1, none, none⟩ 50 :=
  ⟨by decide, by decide⟩

/-- C1 (amended): for every event that reaches the pipeline for a linked
account and is new (no cache row) or differs in a compared field, the cache
row is updated to the event's snapshot regardless of whether a notification
fires; an event whose compared fields are identical to the cached row is
discarded with no cache write at all. -/
theorem cacheFreshForNewOrChangedEvents :
    (∀ (s : BotState) (e : PresenceData) (now : Int) (send : String → Bool)
        (m : String × String),
      getMappingBySteamId s e.steamId = some m →
      (getSteamCache s e.steamId = none ∨
        ∃ prev, getSteamCache s e.steamId = some prev ∧
          (prev.personaState ≠ e.personaState ∨ prev.gameName ≠ e.gameName)) →
      getSteamCache (handlePresenceChange s e now send).1 e.steamId
        = some (cacheEntryOf e now))
    ∧ (∀ (s : BotState) (e : PresenceData) (now : Int) (send : String → Bool)
        (m : String × String) (prev : CacheEntry),
      getMappingBySteamId s e.steamId = some m →
      getSteamCache s e.steamId = some prev →
      prev.personaState = e.personaState → prev.gameName = e.gameName →
      (handlePresenceChange s e now send).1 = s) := by
  constructor
  · intro s e now send m hm hch
    rw [handlePresenceChange_changed s e now send m hm hch]
    exact getSteamCache_processChangedEvent s e now send
  · intro s e now send m prev hm hc hps hgn
    rw [handlePresenceChange_unchanged s e now send m prev hm hc hps hgn]

/-- C1 witness: a rate-limited (mid-cooldown) changed event still refreshes
the cache row to the event's snapshot. -/
theorem cacheFreshForNewOrChangedEvents_witness :
    getSteamCache
        (handlePresenceChange
          ⟨[("u1", "X")], [("g1", "chan1")], [("X", ⟨0, 1⟩)],
            [("X", ⟨"P", none, none, 1, 0⟩)]⟩
          ⟨"X", "P", 2, none, none⟩ 100 (fun _ => true)).1 "X"
      = some (cacheEntryOf ⟨"X", "P", 2, none, none⟩ 100) :=
  cacheFreshForNewOrChangedEvents.1
    ⟨[("u1", "X")], [("g1", "chan1")], [("X", ⟨0, 1⟩)], [("X", ⟨"P", none, none, 1, 0⟩)]⟩
    ⟨"X", "P", 2, none, none⟩ 100 (fun _ => true) ("u1", "X")
    (by decide) (Or.inr ⟨⟨"P", none, none, 1, 0⟩, by decide, by decide⟩)

/-- C5: a changed event for a linked account that is not rate-limit eligible
still upserts the cache row with the new snapshot, sends nothing, and leaves
the `rate_limits` table untouched. -/
theorem ineligibleChangedEventCachesWithoutNotify (s : BotState) (e : PresenceData) (now : Int)
    (send : String → Bool) (m : String × String)
    (hm : getMappingBySteamId s e.steamId = some m)
    (hch : getSteamCache s e.steamId = none ∨
      ∃ prev, getSteamCache s e.steamId = some prev ∧
        (prev.personaState ≠ e.personaState ∨ prev.gameName ≠ e.gameName))
    (hrl : canUpdate s e.steamId 300 now = false) :
    handlePresenceChange s e now send = (updateSteamCache s e.steamId e now, [])
    ∧ (updateSteamCache s e.steamId e now).rateLimits = s.rateLimits
    ∧ getSteamCache (updateSteamCache s e.steamId e now) e.steamId
        = some (cacheEntryOf e now) := by
  refine ⟨?_, rfl, getSteamCache_updateSteamCache_self s e.steamId e now⟩
  rw [handlePresenceChange_changed s e now send m hm hch,
    processChangedEvent_ineligible s e now send hrl]

/-- C5 witness: a state change arriving 100 s into a 300 s cooldown. -/
theorem ineligibleChangedEventCachesWithoutNotify_witness :
    handlePresenceChange
        ⟨[("u1", "X")], [("g1", "chan1")], [("X", ⟨0, 1⟩)], [("X", ⟨"P", none, none, 1, 0⟩)]⟩
        ⟨"X", "P", 2, none, none⟩ 100 (fun _ => true)
      = (updateSteamCache
          ⟨[("u1", "X")], [("g1", "chan1")], [("X", ⟨0, 1⟩)], [("X", ⟨"P", none, none, 1, 0⟩)]⟩
          "X" ⟨"X", "P", 2, none, none⟩ 100, [])
    ∧ (updateSteamCache
          ⟨[("u1", "X")], [("g1", "chan1")], [("X", ⟨0, 1⟩)], [("X", ⟨"P", none, none, 1, 0⟩)]⟩
          "X" ⟨"X", "P", 2, none, none⟩ 100).rateLimits = [("X", ⟨0, 1⟩)]
    ∧ getSteamCache (updateSteamCache
          ⟨[("u1", "X")], [("g1", "chan1")], [("X", ⟨0, 1⟩)], [("X", ⟨"P", none, none, 1, 0⟩)]⟩
          "X" ⟨"X", "P", 2, none, none⟩ 100) "X"
        = some (cacheEntryOf ⟨"X", "P", 2, none, none⟩ 100) :=
  ineligibleChangedEventCachesWithoutNotify
    ⟨[("u1", "X")], [("g1", "chan1")], [("X", ⟨0, 1⟩)], [("X", ⟨"P", none, none, 1, 0⟩)]⟩
    ⟨"X", "P", 2, none, none⟩ 100 (fun _ => true) ("u1", "X")
    (by decide) (Or.inr ⟨⟨"P", none, none, 1, 0⟩, by decide, by decide⟩) (by decide)

/-- C6: for an eligible changed event, the final stored state is exactly the
cache upsert followed by the rate-limit upsert and does not depend on any
delivery outcome (the writes are committed independently of — in the source,
before — the fanout), and every configured destination is attempted with its
own independent result, so one failing destination neither blocks the others
nor alters the committed writes. -/
theorem eligibleFanoutCommitsIndependentOfDelivery (s : BotState) (e : PresenceData)
    (now : Int) (send send' : String → Bool) (m : String × String)
    (hm : getMappingBySteamId s e.steamId = some m)
    (hch : getSteamCache s e.steamId = none ∨
      ∃ prev, getSteamCache s e.steamId = some prev ∧
        (prev.personaState ≠ e.personaState ∨ prev.gameName ≠ e.gameName))
    (hrl : canUpdate s e.steamId 300 now = true) :
    (handlePresenceChange s e now send).1
        = recordUpdate (updateSteamCache s e.steamId e now) e.steamId now
    ∧ (handlePresenceChange s e now send).2
        = s.serverConfigs.map (fun c => (c.2, send c.2))
    ∧ (handlePresenceChange s e now send).1 = (handlePresenceChange s e now send').1 := by
  rw [handlePresenceChange_changed s e now send m hm hch,
    handlePresenceChange_changed s e now send' m hm hch,
    processChangedEvent_eligible s e now send hrl,
    processChangedEvent_eligible s e now send' hrl]
  exact ⟨rfl, rfl, rfl⟩

/-- C6 witness: two destinations where delivery fails on `chan2`: both are
attempted, `chan1` still succeeds, and the committed state is the same as
with an all-success delivery oracle. -/
theorem eligibleFanoutCommitsIndependentOfDelivery_witness :
    ((handlePresenceChange
        ⟨[("u1", "X")], [("g1", "chan1"), ("g2", "chan2")], [],
          [("X", ⟨"P", none, none, 1, 0⟩)]⟩
        ⟨"X", "P", 2, none, none⟩ 400 (fun c => c == "chan1")).1
      = recordUpdate (updateSteamCache
          ⟨[("u1", "X")], [("g1", "chan1"), ("g2", "chan2")], [],
            [("X", ⟨"P", none, none, 1, 0⟩)]⟩
          "X" ⟨"X", "P", 2, none, none⟩ 400) "X" 400)
    ∧ ((handlePresenceChange
        ⟨[("u1", "X")], [("g1", "chan1"), ("g2", "chan2")], [],
          [("X", ⟨"P", none, none, 1, 0⟩)]⟩
        ⟨"X", "P", 2, none, none⟩ 400 (fun c => c == "chan1")).2
      = [("chan1", true), ("chan2", false)])
    ∧ ((handlePresenceChange
        ⟨[("u1", "X")], [("g1", "chan1"), ("g2", "chan2")], [],
          [("X", ⟨"P", none, none, 1, 0⟩)]⟩
        ⟨"X", "P", 2, none, none⟩ 400 (fun c => c == "chan1")).1
      = (handlePresenceChange
        ⟨[("u1", "X")], [("g1", "chan1"), ("g2", "chan2")], [],
          [("X", ⟨"P", none, none, 1, 0⟩)]⟩
        ⟨"X", "P", 2, none, none⟩ 400 (fun _ => true)).1) := by
  have h := eligibleFanoutCommitsIndependentOfDelivery
    ⟨[("u1", "X")], [("g1", "chan1"), ("g2", "chan2")], [], [("X", ⟨"P", none, none, 1, 0⟩)]⟩
    ⟨"X", "P", 2, none, none⟩ 400 (fun c => c == "chan1") (fun _ => true) ("u1", "X")
    (by decide) (Or.inr ⟨⟨"P", none, none, 1, 0⟩, by decide, by decide⟩) (by decide)
  exact ⟨h.1, by rw [h.2.1]; decide, h.2.2⟩

/-- `COALESCE((SELECT update_count FROM rate_limits WHERE steam_id = ?), 0)`. -/
def rateLimitCountOf (s : BotState) (sid : String) : Nat :=
  match lookupTable s.rateLimits sid with
  | none => 0
  | some r => r.updateCount

theorem recordUpdate_rateLimits (s : BotState) (sid : String) (now : Int) :
    (recordUpdate s sid now).rateLimits
      = upsertTable s.rateLimits sid ⟨now, rateLimitCountOf s sid + 1⟩ := rfl

/-- Initial state of the spec's boundary scenario: one linked account `X`,
one destination, no rate-limit record, cached presence state `1` from long
ago. -/
def boundaryState0 : BotState :=
  ⟨[("u1", "X")], [("g1", "chan1")], [], [("X", ⟨"P", none, none, 1, -100⟩)]⟩

/-- Successive snapshots of the boundary scenario differ only in state. -/
def boundaryEvent (st : Nat) : PresenceData := ⟨"X", "P", st, none, none⟩

def boundarySend : String → Bool := fun _ => true

def boundaryState1 : BotState :=
  (handlePresenceChange boundaryState0 (boundaryEvent 2) 0 boundarySend).1

def boundaryState2 : BotState :=
  (handlePresenceChange boundaryState1 (boundaryEvent 3) 299 boundarySend).1

def boundaryState3 : BotState :=
  (handlePresenceChange boundaryState2 (boundaryEvent 4) 300 boundarySend).1

/-- C4: a changed event for a linked account notifies (every configured
destination is attempted and the rate-limit record is reset to time `now`
with its count incremented) exactly when no rate-limit record exists or
`now - lastNotifiedAt ≥ 300`; and the concrete boundary run with cooldown
300: a state change at t=0 notifies and creates the record, a state change
at t=299 updates the cache but does not notify and does not advance the
record, and a state change at t=300 notifies and resets the cooldown clock
to 300. -/
theorem rateLimitBoundary :
    (∀ (s : BotState) (e : PresenceData) (now : Int) (send : String → Bool)
        (m : String × String),
      getMappingBySteamId s e.steamId = some m →
      (getSteamCache s e.steamId = none ∨
        ∃ prev, getSteamCache s e.steamId = some prev ∧
          (prev.personaState ≠ e.personaState ∨ prev.gameName ≠ e.gameName)) →
      ((lookupTable s.rateLimits e.steamId = none ∨
          ∃ r, lookupTable s.rateLimits e.steamId = some r ∧ 300 ≤ now - r.lastUpdate)
        ↔ (lookupTable (handlePresenceChange s e now send).1.rateLimits e.steamId
              = some ⟨now, rateLimitCountOf s e.steamId + 1⟩
            ∧ (handlePresenceChange s e now send).2
              = s.serverConfigs.map (fun c => (c.2, send c.2)))))
    ∧ ((handlePresenceChange boundaryState0 (boundaryEvent 2) 0 boundarySend).2
        = [("chan1", true)]
      ∧ lookupTable boundaryState1.rateLimits "X" = some ⟨0, 1⟩
      ∧ (handlePresenceChange boundaryState1 (boundaryEvent 3) 299 boundarySend).2 = []
      ∧ getSteamCache boundaryState2 "X" = some ⟨"P", none, none, 3, 299⟩
      ∧ lookupTable boundaryState2.rateLimits "X" = some ⟨0, 1⟩
      ∧ (handlePresenceChange boundaryState2 (boundaryEvent 4) 300 boundarySend).2
        = [("chan1", true)]
      ∧ lookupTable boundaryState3.rateLimits "X" = some ⟨300, 2⟩) := by
  constructor
  · intro s e now send m hm hch
    constructor
    · intro helig
      have hcu : canUpdate s e.steamId 300 now = true :=
        (canUpdate_eq_true_iff s e.steamId 300 now).mpr helig
      rw [handlePresenceChange_changed s e now send m hm hch,
        processChangedEvent_eligible s e now send hcu]
      constructor
      · show lookupTable
            (recordUpdate (updateSteamCache s e.steamId e now) e.steamId now).rateLimits
            e.steamId = _
        rw [recordUpdate_rateLimits]
        exact lookupTable_upsert_self _ _ _
      · rfl
    · rintro ⟨h1, h2⟩
      by_contra hne
      have hcu : canUpdate s e.steamId 300 now = false := by
        cases hcu2 : canUpdate s e.steamId 300 now
        · rfl
        · exact absurd ((canUpdate_eq_true_iff s e.steamId 300 now).mp hcu2) hne
      rw [handlePresenceChange_changed s e now send m hm hch,
        processChangedEvent_ineligible s e now send hcu] at h1
      have h1' : lookupTable s.rateLimits e.steamId
          = some ⟨now, rateLimitCountOf s e.steamId + 1⟩ := h1
      cases hL : lookupTable s.rateLimits e.steamId with
      | none => rw [hL] at h1'; exact Option.noConfusion h1'
      | some r =>
        rw [hL] at h1'
        have hcnt : rateLimitCountOf s e.steamId = r.updateCount := by
          unfold rateLimitCountOf
          rw [hL]
        rw [hcnt] at h1'
        have hr := Option.some.inj h1'
        have hcount : r.updateCount = r.updateCount + 1 :=
          congrArg RateLimitRecord.updateCount hr
        omega
  · refine ⟨by decide, by decide, by decide, by decide, by decide, by decide, by decide⟩

/-- C4 witness: the general eligibility criterion instantiated at the
t=300 step of the boundary scenario. -/
theorem rateLimitBoundary_witness :
    (lookupTable boundaryState2.rateLimits "X" = none ∨
        ∃ r, lookupTable boundaryState2.rateLimits "X" = some r ∧ 300 ≤ 300 - r.lastUpdate)
      ↔ (lookupTable
            (handlePresenceChange boundaryState2 (boundaryEvent 4) 300 boundarySend).1.rateLimits
            "X" = some ⟨300, rateLimitCountOf boundaryState2 "X" + 1⟩
          ∧ (handlePresenceChange boundaryState2 (boundaryEvent 4) 300 boundarySend).2
            = boundaryState2.serverConfigs.map (fun c => (c.2, boundarySend c.2))) :=
  rateLimitBoundary.1 boundaryState2 (boundaryEvent 4) 300 boundarySend ("u1", "X")
    (by decide) (Or.inr ⟨⟨"P", none, none, 3, 299⟩, by decide, by decide⟩)

/-- C2: when the invoking chat user is already bound to a different Steam id,
or the requested Steam id is already bound to a different chat user, the
link command replies with the `AlreadyLinkedOther` conflict class and writes
nothing — the stored mappings are returned unchanged, enforcing the
bijection at write time.  The uniqueness hypotheses mirror the table's
`PRIMARY KEY` and `UNIQUE` constraints. -/
theorem linkConflictRejectedWithoutWrite (friendsCache : List String) (s : BotState)
    (discordId identifier steamId64 : String)
    (hid : parseSteamIdentifier identifier = .ok steamId64)
    (hfr : friendsCache.contains steamId64 = true)
    (hnd : (s.userMappings.map Prod.fst).Nodup)
    (hns : (s.userMappings.map Prod.snd).Nodup)
    (hconf : (∃ p ∈ s.userMappings, p.1 = discordId ∧ p.2 ≠ steamId64) ∨
      (∃ p ∈ s.userMappings, p.2 = steamId64 ∧ p.1 ≠ discordId)) :
    (handleLink friendsCache s discordId identifier).1.isAlreadyLinkedOther = true
    ∧ (handleLink friendsCache s discordId identifier).2 = s := by
  have hstep : handleLink friendsCache s discordId identifier =
      (match getUserMapping s discordId with
       | some existing =>
         if existing.2 ≠ steamId64 then (.alreadyLinkedToSteam existing.2, s)
         else handleLinkSteamSide s discordId steamId64
       | none => handleLinkSteamSide s discordId steamId64) := by
    have hcond : (!(friendsCache.contains steamId64)) = false := by
      rw [hfr]
      rfl
    simp only [handleLink, hid, hcond, Bool.false_eq_true, if_false]
  cases hm : getUserMapping s discordId with
  | some q =>
    have hq1 : q.1 = discordId := by
      have h := List.find?_some hm
      simpa using h
    have hqmem : q ∈ s.userMappings := List.mem_of_find?_eq_some hm
    by_cases hq2 : q.2 = steamId64
    · exfalso
      rcases hconf with ⟨p, hp, h1, h2⟩ | ⟨p, hp, h2, h1⟩
      · have hpq : p = q := List.inj_on_of_nodup_map hnd hp hqmem (by rw [h1, hq1])
        exact h2 (by rw [hpq, hq2])
      · have hpq : p = q := List.inj_on_of_nodup_map hns hp hqmem (by rw [h2, hq2])
        exact h1 (by rw [hpq, hq1])
    · rw [hstep]
      simp only [hm]
      rw [if_pos hq2]
      exact ⟨rfl, rfl⟩
  | none =>
    rcases hconf with ⟨p, hp, h1, h2⟩ | ⟨p, hp, h2, h1⟩
    · exfalso
      have hno := List.find?_eq_none.mp hm p hp
      exact hno (by simp [h1])
    · rw [hstep]
      simp only [hm]
      cases hms : getMappingBySteamId s steamId64 with
      | none =>
        exfalso
        have hno := List.find?_eq_none.mp hms p hp
        exact hno (by simp [h2])
      | some q =>
        have hqmem : q ∈ s.userMappings := List.mem_of_find?_eq_some hms
        have hq1 : q.1 ≠ discordId := by
          intro hq1
          have hno := List.find?_eq_none.mp hm q hqmem
          exact hno (by simp [hq1])
        have hside : handleLinkSteamSide s discordId steamId64
            = (.steamLinkedToOtherUser, s) := by
          unfold handleLinkSteamSide
          rw [hms]
          show (if q.1 ≠ discordId then ((LinkReply.steamLinkedToOtherUser, s) :
              LinkReply × BotState)
            else (.success steamId64, linkUser s discordId steamId64))
            = (.steamLinkedToOtherUser, s)
          rw [if_pos hq1]
        rw [hside]
        exact ⟨rfl, rfl⟩

/-- C2 witness: user `d1` is bound to Steam id `...002` and asks to link
`...001` (a friend of the bot): the conflict reply fires and the mapping
table is unchanged. -/
theorem linkConflictRejectedWithoutWrite_witness :
    (handleLink ["76561198000000001"]
        ⟨[("d1", "76561198000000002")], [], [], []⟩ "d1"
        "76561198000000001").1.isAlreadyLinkedOther = true
    ∧ (handleLink ["76561198000000001"]
        ⟨[("d1", "76561198000000002")], [], [], []⟩ "d1"
        "76561198000000001").2 = ⟨[("d1", "76561198000000002")], [], [], []⟩ :=
  linkConflictRejectedWithoutWrite ["76561198000000001"]
    ⟨[("d1", "76561198000000002")], [], [], []⟩ "d1" "76561198000000001" "76561198000000001"
    (by decide) (by decide) (by decide) (by decide)
    (Or.inl ⟨("d1", "76561198000000002"), by decide, by decide, by decide⟩)

/-- C8 counterexample: an exception raised at the very first database access
of the presence-processing path (closed database handle) is caught by the
handler's own try/catch — the dispatched event completes with `continued`,
not with a shutdown, refuting "any unhandled exception ... triggers the same
graceful-shutdown sequence ... rather than being swallowed and processing
continuing". -/
theorem presencePathExceptionDoesNotShutdown :
    runHandlerBody false ⟨[("u1", "X")], [("g1", "chan1")], [], []⟩
        ⟨"X", "P", 1, none, none⟩ 0 (fun _ => true)
      = .error "The database connection is not open"
    ∧ handlePresenceChangeTop false ⟨[("u1", "X")], [("g1", "chan1")], [], []⟩
        ⟨"X", "P", 1, none, none⟩ 0 (fun _ => true)
      = .continued
    ∧ HandlerOutcome.continued ≠ HandlerOutcome.shutdownStarted :=
  ⟨rfl, rfl, by decide⟩

/-- C8 (amended): exceptions raised inside the presence-event handler are
caught by its enclosing try/catch, logged, and swallowed — the handler
always returns `continued` and processing goes on; the graceful-shutdown
sequence (Steam logout, Discord client destroy, store close, exit) runs
only for the process-level events registered in `setupShutdownHandlers`
(termination signals and process-level uncaught exceptions/rejections). -/
theorem handlerSwallowsErrorsShutdownIsProcessLevel :
    (∀ (dbOpen : Bool) (s : BotState) (e : PresenceData) (now : Int) (send : String → Bool),
      handlePresenceChangeTop dbOpen s e now send = .continued)
    ∧ (∀ ev : ProcessEvent, onProcessEvent ev = shutdownSequence) := by
  constructor
  · intro dbOpen s e now send
    unfold handlePresenceChangeTop runHandlerBody
    cases dbOpen <;> rfl
  · intro ev
    cases ev <;> rfl

/-- C9: with a second-factor seed configured, the one-time code placed in the
logon options of an attempt at time `t` is the derivation `gen secret t` at
that very moment (so distinct attempts derive distinct, fresh codes — nothing
is memoized), and a `steamGuard` challenge is answered by deriving a code on
demand at challenge time; without a seed a `steamGuard` challenge rejects
the login fatally. -/
theorem secondFactorDerivedFreshPerAttempt :
    (∀ (gen : String → Int → String) (cfg : SteamConfig) (t : Int) (secret : String),
      jsPresent cfg.sharedSecret = some secret →
      (buildLogOnOptions gen cfg t).twoFactorCode = some (gen secret t)
      ∧ onSteamGuard gen cfg t = .submitCode (gen secret t))
    ∧ (∀ (gen : String → Int → String) (cfg : SteamConfig) (t : Int),
      jsPresent cfg.sharedSecret = none →
      onSteamGuard gen cfg t
        = .fatalReject "SteamGuard code required but no shared secret or code provided. Please set STEAM_SHARED_SECRET or STEAM_2FA_CODE in .env") := by
  constructor
  · intro gen cfg t secret h
    unfold buildLogOnOptions onSteamGuard
    rw [h]
    exact ⟨rfl, rfl⟩
  · intro gen cfg t h
    unfold onSteamGuard
    rw [h]

/-- C9 witness: at attempt times 5 and 6 with seed `"SEED"`, the logon code
is the derivation at the respective moment; and with no seed the challenge
is fatal. -/
theorem secondFactorDerivedFreshPerAttempt_witness :
    ((buildLogOnOptions (fun sec t => sec ++ toString t)
        ⟨"user", "pass", some "SEED", none⟩ 5).twoFactorCode = some "SEED5"
      ∧ onSteamGuard (fun sec t => sec ++ toString t)
        ⟨"user", "pass", some "SEED", none⟩ 5 = .submitCode "SEED5")
    ∧ ((buildLogOnOptions (fun sec t => sec ++ toString t)
        ⟨"user", "pass", some "SEED", none⟩ 6).twoFactorCode = some "SEED6"
      ∧ onSteamGuard (fun sec t => sec ++ toString t)
        ⟨"user", "pass", some "SEED", none⟩ 6 = .submitCode "SEED6")
    ∧ onSteamGuard (fun sec t => sec ++ toString t) ⟨"user", "pass", none, some "123AB"⟩ 5
      = .fatalReject "SteamGuard code required but no shared secret or code provided. Please set STEAM_SHARED_SECRET or STEAM_2FA_CODE in .env" :=
  ⟨secondFactorDerivedFreshPerAttempt.1 (fun sec t => sec ++ toString t)
      ⟨"user", "pass", some "SEED", none⟩ 5 "SEED" (by decide),
    secondFactorDerivedFreshPerAttempt.1 (fun sec t => sec ++ toString t)
      ⟨"user", "pass", some "SEED", none⟩ 6 "SEED" (by decide),
    secondFactorDerivedFreshPerAttempt.2 (fun sec t => sec ++ toString t)
      ⟨"user", "pass", none, some "123AB"⟩ 5 (by decide)⟩

theorem matchProfilesAt_some (cs d : List Char) (h : matchProfilesAt cs = some d) :
    d ≠ [] ∧ (∀ c ∈ d, c.isDigit) ∧ beginsWith profilesUrlLit cs = true := by
  unfold matchProfilesAt at h
  by_cases hb : beginsWith profilesUrlLit cs = true
  · rw [if_pos hb] at h
    by_cases he : ((cs.drop profilesUrlLit.length).takeWhile Char.isDigit).isEmpty = true
    · rw [if_pos he] at h
      exact Option.noConfusion h
    · rw [if_neg he] at h
      have hd : (cs.drop profilesUrlLit.length).takeWhile Char.isDigit = d :=
        Option.some.inj h
      refine ⟨?_, ?_, hb⟩
      · intro hnil
        rw [hd, hnil] at he
        exact he rfl
      · intro c hc
        rw [← hd] at hc
        exact List.mem_takeWhile_imp hc
  · rw [if_neg hb] at h
    exact Option.noConfusion h

theorem scanProfiles_some (cs d : List Char) (h : scanProfiles cs = some d) :
    d ≠ [] ∧ (∀ c ∈ d, c.isDigit)
      ∧ ∃ t, t <:+ cs ∧ beginsWith profilesUrlLit t = true := by
  induction cs with
  | nil => exact Option.noConfusion h
  | cons c rest ih =>
    unfold scanProfiles at h
    cases hma : matchProfilesAt (c :: rest) with
    | some d' =>
      rw [hma] at h
      have hd : d' = d := Option.some.inj h
      obtain ⟨hne, hdig, hb⟩ := matchProfilesAt_some (c :: rest) d' hma
      exact ⟨hd ▸ hne, hd ▸ hdig, ⟨c :: rest, List.suffix_refl _, hb⟩⟩
    | none =>
      rw [hma] at h
      obtain ⟨hne, hdig, t, ht, hb⟩ := ih h
      exact ⟨hne, hdig, ⟨t, ht.trans (List.suffix_cons c rest), hb⟩⟩

theorem beginsWith_profiles_mem (cs : List Char) (h : beginsWith profilesUrlLit cs = true) :
    's' ∈ cs := by
  cases cs with
  | nil => exact absurd h (by decide)
  | cons c rest =>
    have h2 : (('s' == c) && beginsWith "teamcommunity.com/profiles/".data rest) = true := h
    have hc : 's' = c := by
      have h3 := h2
      simp only [Bool.and_eq_true, beq_iff_eq] at h3
      exact h3.1
    rw [hc]
    exact List.mem_cons_self c rest

/-- C10: a successful parse always returns a nonempty all-digit account id:
the trimmed input itself exactly when it matches `^7656119\d{10}$` (and only
then), the captured digit run when the input contains a
`steamcommunity.com/profiles/<digits>` URL, and otherwise the parser throws —
with the dedicated custom-URL error when a `steamcommunity.com/id/...` URL
is present. -/
theorem parseSteamIdentifierSpec :
    (∀ (str r : String), parseSteamIdentifier str = .ok r →
      r.data ≠ [] ∧ r.data.all Char.isDigit = true)
    ∧ (∀ str : String, isSteamId64 (jsTrim str) = true →
      parseSteamIdentifier str = .ok (jsTrim str))
    ∧ (∀ str : String, parseSteamIdentifier str = .ok (jsTrim str) →
      isSteamId64 (jsTrim str) = true)
    ∧ (∀ (str : String) (d : List Char), isSteamId64 (jsTrim str) = false →
      scanProfiles (jsTrim str).data = some d →
      parseSteamIdentifier str = .ok (String.mk d))
    ∧ (∀ str : String, isSteamId64 (jsTrim str) = false →
      scanProfiles (jsTrim str).data = none →
      hasCustomUrl (jsTrim str).data = true →
      parseSteamIdentifier str
        = .error "Custom URLs not supported. Please provide your Steam ID64 instead.")
    ∧ (∀ str : String, isSteamId64 (jsTrim str) = false →
      scanProfiles (jsTrim str).data = none →
      ∃ msg, parseSteamIdentifier str = .error msg) := by
  have hok : ∀ (str r : String), parseSteamIdentifier str = .ok r →
      r.data ≠ [] ∧ r.data.all Char.isDigit = true := by
    intro str r h
    simp only [parseSteamIdentifier] at h
    by_cases h64 : isSteamId64 (jsTrim str) = true
    · rw [if_pos h64] at h
      have hr : jsTrim str = r := Except.ok.inj h
      rw [← hr]
      unfold isSteamId64 at h64
      rw [Bool.and_eq_true, Bool.and_eq_true] at h64
      obtain ⟨⟨_, hlen⟩, hdig⟩ := h64
      refine ⟨?_, hdig⟩
      intro hnil
      rw [hnil] at hlen
      exact absurd hlen (by decide)
    · rw [if_neg h64] at h
      cases hscan : scanProfiles (jsTrim str).data with
      | some digits =>
        rw [hscan] at h
        have hr : String.mk digits = r := Except.ok.inj h
        obtain ⟨hne, hdig, _⟩ := scanProfiles_some _ _ hscan
        rw [← hr]
        exact ⟨hne, List.all_eq_true.mpr hdig⟩
      | none =>
        rw [hscan] at h
        by_cases hcu : hasCustomUrl (jsTrim str).data = true
        · rw [if_pos hcu] at h
          exact Except.noConfusion h
        · rw [if_neg hcu] at h
          exact Except.noConfusion h
  refine ⟨hok, ?_, ?_, ?_, ?_, ?_⟩
  · intro str h64
    simp only [parseSteamIdentifier]
    rw [if_pos h64]
  · intro str h
    by_cases h64 : isSteamId64 (jsTrim str) = true
    · exact h64
    · exfalso
      simp only [parseSteamIdentifier] at h
      rw [if_neg h64] at h
      cases hscan : scanProfiles (jsTrim str).data with
      | some digits =>
        rw [hscan] at h
        have hr : String.mk digits = jsTrim str := Except.ok.inj h
        have hdata : digits = (jsTrim str).data := congrArg String.data hr
        obtain ⟨_, hdig, t, ht, hb⟩ := scanProfiles_some _ _ hscan
        have hs : 's' ∈ (jsTrim str).data := ht.subset (beginsWith_profiles_mem t hb)
        have hsd : ('s' : Char).isDigit := hdig 's' (hdata ▸ hs)
        exact absurd hsd (by decide)
      | none =>
        rw [hscan] at h
        by_cases hcu : hasCustomUrl (jsTrim str).data = true
        · rw [if_pos hcu] at h
          exact Except.noConfusion h
        · rw [if_neg hcu] at h
          exact Except.noConfusion h
  · intro str d h64 hscan
    simp only [parseSteamIdentifier]
    rw [h64]
    rw [if_neg (by decide : ¬(false = true)), hscan]
  · intro str h64 hscan hcu
    simp only [parseSteamIdentifier]
    rw [h64]
    rw [if_neg (by decide : ¬(false = true)), hscan, if_pos hcu]
  · intro str h64 hscan
    simp only [parseSteamIdentifier]
    rw [h64]
    rw [if_neg (by decide : ¬(false = true)), hscan]
    by_cases hcu : hasCustomUrl (jsTrim str).data = true
    · rw [if_pos hcu]
      exact ⟨_, rfl⟩
    · rw [if_neg hcu]
      exact ⟨_, rfl⟩

/-- C10 witness: parses of a bare SteamID64 and of a profiles URL both yield
nonempty all-digit ids. -/
theorem parseSteamIdentifierSpec_witness :
    (("76561198000000001" : String).data ≠ []
      ∧ ("76561198000000001" : String).data.all Char.isDigit = true)
    ∧ (("123456" : String).data ≠ []
      ∧ ("123456" : String).data.all Char.isDigit = true) :=
  ⟨parseSteamIdentifierSpec.1 "76561198000000001" "76561198000000001" (by decide),
    parseSteamIdentifierSpec.1 "https://steamcommunity.com/profiles/123456" "123456"
      (by decide)⟩

end SteamBot
